import Mathlib

/-!
Shallow embedding of the postgres-mcp diagnostic engine.

Conventions used throughout:
* JavaScript strings are modelled as Lean `String`; case folding, trimming and
  substring search are implemented on `List Char` so that every operation is
  kernel-computable.  Only ASCII matters for the properties below, where the
  JS and Lean notions of lower-casing and whitespace agree.
* Numeric fields that the source obtains from the database as decimal strings
  and immediately feeds to `parseInt`/`parseFloat` are modelled as `ℕ` (they
  are Postgres counters, hence nonnegative integers).  Fields that the source
  only ever interpolates into message strings are kept as `String`.
* JS number arithmetic on derived percentages is modelled over `ℚ`;
  `Math.round` is `⌊q + 1/2⌋` (round half towards +∞, as in JS).
* Fallible tools (`throw new Error ...`) are modelled with `Except String`.
* Database reads are modelled by passing the materialized result rows of each
  query as an explicit snapshot record; a tool that fails before its first
  query returns the same result for every snapshot.
-/

namespace PostgresMcp

/-! ### Character-list string primitives (JS semantics) -/

/-- Lower-case every character (JS `toLowerCase`, ASCII fragment). -/
def lowerChars (cs : List Char) : List Char := cs.map Char.toLower

/-- Strip leading and trailing whitespace (JS `trim`, ASCII fragment). -/
def trimChars (cs : List Char) : List Char :=
  ((cs.dropWhile Char.isWhitespace).reverse.dropWhile Char.isWhitespace).reverse

/-- `containsSub hay needle` is JS `hay.includes(needle)`. -/
def containsSub : List Char → List Char → Bool
  | [], needle => needle.isEmpty
  | h :: t, needle => needle.isPrefixOf (h :: t) || containsSub t needle

/-- JS regex test `/^kw\s/` on a string: the keyword followed by a whitespace
character at the very start. -/
def startsWithKw (kw s : List Char) : Bool :=
  kw.isPrefixOf s &&
    (match s.drop kw.length with
     | c :: _ => c.isWhitespace
     | [] => false)

/-- Strict lexicographic order on strings by character code, used to model the
ascending `ORDER BY indexname` collation on ASCII identifiers. -/
def lexLt : List Char → List Char → Bool
  | [], [] => false
  | [], _ :: _ => true
  | _ :: _, [] => false
  | a :: as, b :: bs => if a = b then lexLt as bs else decide (a < b)

/-- JS `Math.round` on a rational (round half towards +∞). -/
def jsRound (q : ℚ) : ℤ := ⌊q + 1 / 2⌋

/-- JS `Math.round(q * 100) / 100` — round to two decimal places. -/
def jsRound2 (q : ℚ) : ℚ := (jsRound (q * 100) : ℚ) / 100

/-! ### Severity and the health-score fold (`src/unnamed/part_004`, lines 241–259) -/

inductive Severity where
  | critical
  | high
  | medium
  | low
deriving DecidableEq, Repr

/-- Penalty per severity as used by the health-score loop. -/
def penalty : Severity → ℤ
  | .critical => 20
  | .high => 10
  | .medium => 5
  | .low => 0

/-- Accumulator of the loop over `critical_issues`. -/
structure ScoreAcc where
  health_score : ℤ
  criticalCount : ℕ
  warningCount : ℕ
deriving DecidableEq, Repr

/-- One iteration of the `for (const issue of critical_issues)` loop. -/
def scoreStep (acc : ScoreAcc) (s : Severity) : ScoreAcc :=
  match s with
  | .critical => ⟨acc.health_score - 20, acc.criticalCount + 1, acc.warningCount⟩
  | .high => ⟨acc.health_score - 10, acc.criticalCount, acc.warningCount + 1⟩
  | .medium => ⟨acc.health_score - 5, acc.criticalCount, acc.warningCount + 1⟩
  | .low => acc

/-- The whole loop starting from `health_score = 100`. -/
def scoreFold (severities : List Severity) : ScoreAcc :=
  severities.foldl scoreStep ⟨100, 0, 0⟩

/-- `health_score = Math.max(0, health_score)` after the loop. -/
def healthScore (severities : List Severity) : ℤ :=
  max 0 (scoreFold severities).health_score

/-! ### Identifier validation (`src/db.ts`, lines 91–96) -/

/-- One character of the class `[a-zA-Z0-9_.-]`. -/
def isAllowedIdentChar (c : Char) : Bool :=
  ('a' ≤ c && c ≤ 'z') || ('A' ≤ c && c ≤ 'Z') || ('0' ≤ c && c ≤ '9') ||
    c = '_' || c = '.' || c = '-'

/-- `validateIdentifier`: `/^[a-zA-Z0-9_.-]+$/.test(id) && id.length > 0 && id.length < 256`.
A string passing the regex is ASCII, so the JS UTF-16 length agrees with the
codepoint count. -/
def validateIdentifier (identifier : String) : Bool :=
  (!identifier.data.isEmpty && identifier.data.all isAllowedIdentChar) &&
    decide (0 < identifier.data.length) && decide (identifier.data.length < 256)

/-! ### Read-only query gate (`src/unnamed/part_003`, lines 32–80) -/

structure ValidationResult where
  valid : Bool
  reason : Option String
deriving DecidableEq, Repr

/-- The `writeKeywords` denylist, verbatim (note which entries carry a
trailing space). -/
def writeKeywords : List String :=
  ["insert ", "update ", "delete ", "drop ", "create ", "alter ", "truncate ",
   "grant ", "revoke ", "commit", "rollback", "begin", "start transaction",
   "set ", "copy "]

/-- The allowed leading commands, each required to be followed by whitespace. -/
def allowedStartKeywords : List String :=
  ["select", "with", "explain", "show", "table", "values"]

def startsWithAllowedCmd (normalizedQuery : List Char) : Bool :=
  allowedStartKeywords.any (fun kw => startsWithKw kw.data normalizedQuery)

/-- `validateReadOnlyQuery`: trim + lowercase, reject on the first denylisted
token found, then require an allowed leading command. -/
def validateReadOnlyQuery (query : String) : ValidationResult :=
  let normalizedQuery := lowerChars (trimChars query.data)
  match writeKeywords.find? (fun kw => containsSub normalizedQuery kw.data) with
  | some kw =>
      ⟨false, some ("Query contains prohibited keyword: \"" ++ kw ++
        "\". This tool only supports SELECT queries.")⟩
  | none =>
      if startsWithAllowedCmd normalizedQuery then ⟨true, none⟩
      else ⟨false, some "Query must start with SELECT, WITH, EXPLAIN, SHOW, TABLE, or VALUES"⟩

/-! ### `executeQueryTool` query preparation (`src/unnamed/part_003`, lines 88–120) -/

/-- What `executeQueryTool` decides to run: the final statement text and the
optional warning attached to the output. -/
structure ExecuteQueryPlan where
  finalQuery : String
  warning : Option String
deriving DecidableEq, Repr

/-- The pre-execution logic of `executeQueryTool`: destructure
`maxRows = 100` (the default fires only when the field is absent), validate,
trim, and append `LIMIT` when `maxRows` is truthy and the trimmed statement
does not already contain `"limit "`. -/
def executeQueryToolPlan (query : String) (maxRowsInput : Option ℕ) :
    Except String ExecuteQueryPlan :=
  let maxRows := maxRowsInput.getD 100
  let validation := validateReadOnlyQuery query
  if validation.valid then
    let finalQuery : String := ⟨trimChars query.data⟩
    if maxRows ≠ 0 && !containsSub (lowerChars finalQuery.data) "limit ".data then
      .ok ⟨finalQuery ++ " LIMIT " ++ toString maxRows,
        some ("Added LIMIT " ++ toString maxRows ++
          " to prevent excessive results. Specify LIMIT in your query to override.")⟩
    else
      .ok ⟨finalQuery, none⟩
  else
    .error (validation.reason.getD "")

/-! ### `getQueryStatistics` (`src/unnamed/part_003`, lines 164–424)

Rows are modelled post-`parseInt`: the source converts each decimal string
field to a number immediately, so the embedded row carries the numbers. -/

structure PgStatUserTablesRow where
  seq_scan : ℕ
  seq_tup_read : ℕ
  idx_scan : ℕ
  idx_tup_fetch : ℕ
  n_tup_ins : ℕ
  n_tup_upd : ℕ
  n_tup_del : ℕ
  n_tup_hot_upd : ℕ
  n_live_tup : ℕ
  n_dead_tup : ℕ
  last_vacuum : Option String
  last_autovacuum : Option String
  last_analyze : Option String
  last_autoanalyze : Option String
  vacuum_count : ℕ
  autovacuum_count : ℕ
  analyze_count : ℕ
  autoanalyze_count : ℕ
deriving DecidableEq, Repr

/-- With pre-parsed rows the source's string-to-number mapping is the
identity, so `TableStatistics` coincides with the row type. -/
abbrev TableStatistics := PgStatUserTablesRow

structure PgStatioUserTablesRow where
  heap_blks_read : ℕ
  heap_blks_hit : ℕ
  idx_blks_read : ℕ
  idx_blks_hit : ℕ
  toast_blks_read : ℕ
  toast_blks_hit : ℕ
  tidx_blks_read : ℕ
  tidx_blks_hit : ℕ
deriving DecidableEq, Repr

/-- Source interface `IOStatistics`; `cache_hit_ratio` is carried in the
`cache_hit_pct` field (renamed for this development). -/
structure IoStatistics where
  heap_blks_read : ℕ
  heap_blks_hit : ℕ
  idx_blks_read : ℕ
  idx_blks_hit : ℕ
  toast_blks_read : ℕ
  toast_blks_hit : ℕ
  tidx_blks_read : ℕ
  tidx_blks_hit : ℕ
  cache_hit_pct : ℚ
deriving DecidableEq, Repr

structure PgStatUserIndexesRow where
  indexrelname : String
  idx_scan : ℕ
  idx_tup_read : ℕ
  idx_tup_fetch : ℕ
  idx_blks_read : ℕ
  idx_blks_hit : ℕ
  size : String
deriving DecidableEq, Repr

/-- Source interface `IndexStatistics`. -/
structure IndexStatisticsEntry where
  index_name : String
  idx_scan : ℕ
  idx_tup_read : ℕ
  idx_tup_fetch : ℕ
  idx_blks_read : ℕ
  idx_blks_hit : ℕ
  size : String
deriving DecidableEq, Repr

structure BloatEstimate where
  dead_tuple_percent : ℚ
  estimated_bloat : String
deriving DecidableEq, Repr

structure QueryStatisticsOutput where
  schema : String
  table : String
  table_statistics : TableStatistics
  io_statistics : IoStatistics
  index_statistics : List IndexStatisticsEntry
  bloat_estimate : BloatEstimate
deriving DecidableEq, Repr

/-- The materialized result rows of the three catalog queries issued by
`getQueryStatistics` for the requested table. -/
structure QueryStatsSnapshot where
  tableStatsRows : List PgStatUserTablesRow
  ioRows : List PgStatioUserTablesRow
  indexRows : List PgStatUserIndexesRow
deriving Repr

def getQueryStatistics (schema table : String) (db : QueryStatsSnapshot) :
    Except String QueryStatisticsOutput :=
  if !validateIdentifier schema || !validateIdentifier table then
    .error "Invalid schema or table name"
  else
    match db.tableStatsRows with
    | [] => .error ("Table " ++ schema ++ "." ++ table ++ " not found in statistics")
    | tableStats :: _ =>
      let ioStats := db.ioRows.head?.getD ⟨0, 0, 0, 0, 0, 0, 0, 0⟩
      let total_heap_blks := ioStats.heap_blks_read + ioStats.heap_blks_hit
      let cache_hit_raw : ℚ :=
        if 0 < total_heap_blks then
          ((ioStats.heap_blks_hit : ℚ) / (total_heap_blks : ℚ)) * 100
        else 0
      let io_statistics : IoStatistics :=
        ⟨ioStats.heap_blks_read, ioStats.heap_blks_hit, ioStats.idx_blks_read,
         ioStats.idx_blks_hit, ioStats.toast_blks_read, ioStats.toast_blks_hit,
         ioStats.tidx_blks_read, ioStats.tidx_blks_hit, jsRound2 cache_hit_raw⟩
      let index_statistics : List IndexStatisticsEntry :=
        db.indexRows.map (fun row =>
          ⟨row.indexrelname, row.idx_scan, row.idx_tup_read, row.idx_tup_fetch,
           row.idx_blks_read, row.idx_blks_hit, row.size⟩)
      let n_live := tableStats.n_live_tup
      let n_dead := tableStats.n_dead_tup
      let total_tup := n_live + n_dead
      let dead_tuple_percent : ℚ :=
        if 0 < total_tup then ((n_dead : ℚ) / (total_tup : ℚ)) * 100 else 0
      let bloat_description : String :=
        if dead_tuple_percent > 20 then "High"
        else if dead_tuple_percent > 10 then "Moderate"
        else "Low"
      .ok ⟨schema, table, tableStats, io_statistics, index_statistics,
        ⟨jsRound2 dead_tuple_percent, bloat_description⟩⟩

/-! ### `suggestIndexingStrategies` (`src/src/tools/suggestIndexingStrategies.ts`) -/

structure PgIndexesRow where
  indexname : String
  indexdef : String
  idx_scan : ℕ
  idx_tup_read : ℕ
  idx_tup_fetch : ℕ
  size_bytes : ℕ
  size_pretty : String
deriving DecidableEq, Repr

structure IndexUsageStats where
  index_name : String
  columns : List String
  index_type : String
  is_unique : Bool
  is_primary : Bool
  size : String
  scans : ℕ
  tuples_read : ℕ
  tuples_fetched : ℕ
  size_bytes : ℕ
deriving DecidableEq, Repr

structure UnusedIndex where
  index_name : String
  columns : List String
  size : String
  reason : String
deriving DecidableEq, Repr

structure UnindexedForeignKey where
  constraint_name : String
  column_name : String
  foreign_table : String
  foreign_column : String
deriving DecidableEq, Repr

structure DuplicateIndex where
  index1_name : String
  index2_name : String
  reason : String
  suggestion : String
deriving DecidableEq, Repr

/-- Source interface `TableScanAnalysis`; `high_seq_scan_ratio` is carried in
the `high_seq_scan_flag` field (renamed for this development). -/
structure TableScanAnalysis where
  seq_scan : ℕ
  seq_tup_read : ℕ
  idx_scan : ℕ
  idx_tup_fetch : ℕ
  high_seq_scan_flag : Bool
  seq_scan_percentage : ℚ
deriving DecidableEq, Repr

structure RecommendationsContext where
  total_indexes : ℕ
  total_index_size : String
  table_size : String
  row_count : ℕ
deriving DecidableEq, Repr

structure IndexingStrategiesOutput where
  schema : String
  table : String
  index_usage_stats : List IndexUsageStats
  unused_indexes : List UnusedIndex
  unindexed_fk_columns : List UnindexedForeignKey
  duplicate_indexes : List DuplicateIndex
  table_scan_analysis : TableScanAnalysis
  recommendations_context : RecommendationsContext
deriving DecidableEq, Repr

/-- JS regex search `/\(([^)]+)\)/`: scan left to right for a `(` followed by a
nonempty run of non-`)` characters terminated by `)`; capture that run. -/
def firstParenInner : List Char → Option (List Char)
  | [] => none
  | '(' :: rest =>
      let inner := rest.takeWhile (fun c => c ≠ ')')
      if !inner.isEmpty && !(rest.drop inner.length).isEmpty then some inner
      else firstParenInner rest
  | _ :: rest => firstParenInner rest

/-- JS `split(',')` on a character list. -/
def splitOnComma : List Char → List (List Char)
  | [] => [[]]
  | c :: rest =>
      match splitOnComma rest with
      | [] => [[c]]
      | h :: t => if c = ',' then [] :: h :: t else (c :: h) :: t

/-- JS `replace(/^"(.*)"$/, '$1')`: strip one pair of surrounding double
quotes when the string both starts and ends with one. -/
def stripOuterQuotes (cs : List Char) : List Char :=
  if 2 ≤ cs.length && cs.head? == some '"' && cs.getLast? == some '"' then
    (cs.drop 1).dropLast
  else cs

/-- Column-list extraction from an index definition. -/
def extractColumns (indexdef : String) : List String :=
  match firstParenInner indexdef.data with
  | none => []
  | some inner =>
      (splitOnComma inner).map (fun c => String.mk (stripOuterQuotes (trimChars c)))

/-- Access method extraction from an index definition. -/
def extractIndexType (indexdef : String) : String :=
  if containsSub indexdef.data "USING gin".data then "gin"
  else if containsSub indexdef.data "USING gist".data then "gist"
  else if containsSub indexdef.data "USING hash".data then "hash"
  else if containsSub indexdef.data "USING brin".data then "brin"
  else "btree"

/-- JS `endsWith` on strings. -/
def strEndsWith (s suffix : String) : Bool :=
  suffix.data.reverse.isPrefixOf s.data.reverse

/-- Per-row body of the loop building `index_usage_stats`. -/
def buildIndexUsageStat (row : PgIndexesRow) : IndexUsageStats :=
  ⟨row.indexname, extractColumns row.indexdef, extractIndexType row.indexdef,
   containsSub row.indexdef.data "UNIQUE INDEX".data,
   strEndsWith row.indexname "_pkey",
   row.size_pretty, row.idx_scan, row.idx_tup_read, row.idx_tup_fetch,
   row.size_bytes⟩

/-- All ordered pairs `(l[i], l[j])` with `i < j`, in the enumeration order of
the source's nested loops. -/
def allPairs {α : Type} : List α → List (α × α)
  | [] => []
  | x :: xs => xs.map (fun y => (x, y)) ++ allPairs xs

/-- JS `idx1.columns.every((col, index) => idx2.columns[index] === col)`
(out-of-range access compares unequal). -/
def everyIndexMatches (c1 c2 : List String) : Bool :=
  (List.range c1.length).all (fun i => c2.getD i "" == c1.getD i "")

/-- Body of the pairwise duplicate/redundant-index check for one pair
`(idx1, idx2)` taken with `i < j`. -/
def checkPair (idx1 idx2 : IndexUsageStats) : List DuplicateIndex :=
  if idx1.columns = idx2.columns then
    [⟨idx1.index_name, idx2.index_name, "Indexes have identical column sets",
      "Consider dropping one of these indexes (prefer keeping " ++
        (if idx1.scans > idx2.scans then idx1.index_name else idx2.index_name) ++
        " based on usage)"⟩]
  else if idx1.columns.length < idx2.columns.length then
    if everyIndexMatches idx1.columns idx2.columns then
      [⟨idx1.index_name, idx2.index_name,
        idx1.index_name ++ " is a prefix of " ++ idx2.index_name,
        "Consider dropping " ++ idx1.index_name ++ " as " ++ idx2.index_name ++
          " can handle the same queries"⟩]
    else []
  else if idx2.columns.length < idx1.columns.length then
    if everyIndexMatches idx2.columns idx1.columns then
      [⟨idx2.index_name, idx1.index_name,
        idx2.index_name ++ " is a prefix of " ++ idx1.index_name,
        "Consider dropping " ++ idx2.index_name ++ " as " ++ idx1.index_name ++
          " can handle the same queries"⟩]
    else []
  else []

/-- The full nested-loop duplicate/redundant detection. -/
def duplicateIndexesOf (index_usage_stats : List IndexUsageStats) : List DuplicateIndex :=
  (allPairs index_usage_stats).flatMap (fun p => checkPair p.1 p.2)

/-- `toFixed(2)` on a nonnegative rational. -/
def toFixed2 (q : ℚ) : String :=
  let n : ℤ := jsRound (q * 100)
  toString (n / 100) ++ "." ++
    (if n % 100 < 10 then "0" ++ toString (n % 100).toNat else toString (n % 100).toNat)

structure FkJoinRow where
  constraint_name : String
  column_name : String
  foreign_table_schema : String
  foreign_table_name : String
  foreign_column_name : String
deriving DecidableEq, Repr

structure ScanStatsRow where
  seq_scan : ℕ
  seq_tup_read : ℕ
  idx_scan : ℕ
  idx_tup_fetch : ℕ
deriving DecidableEq, Repr

structure SizeContextRow where
  table_size : String
  row_count : ℕ
deriving DecidableEq, Repr

/-- Materialized result rows of the four queries of `suggestIndexingStrategies`;
`rows` is ordered by the backing `ORDER BY i.indexname`. -/
structure IndexingSnapshot where
  rows : List PgIndexesRow
  fkRows : List FkJoinRow
  scanRows : List ScanStatsRow
  contextRows : List SizeContextRow
deriving Repr

def suggestIndexingStrategies (schema table : String) (db : IndexingSnapshot) :
    Except String IndexingStrategiesOutput :=
  if !validateIdentifier schema || !validateIdentifier table then
    .error "Invalid schema or table name"
  else
    let index_usage_stats := db.rows.map buildIndexUsageStat
    let unused_indexes : List UnusedIndex :=
      index_usage_stats.filterMap (fun s =>
        if s.scans == 0 && !s.is_primary && !s.is_unique then
          some ⟨s.index_name, s.columns, s.size, "Index has never been scanned"⟩
        else none)
    let unindexed_fk_columns : List UnindexedForeignKey :=
      db.fkRows.map (fun row =>
        ⟨row.constraint_name, row.column_name,
         row.foreign_table_schema ++ "." ++ row.foreign_table_name,
         row.foreign_column_name⟩)
    let duplicate_indexes := duplicateIndexesOf index_usage_stats
    let scanStats := db.scanRows.head?.getD ⟨0, 0, 0, 0⟩
    let total_scans := scanStats.seq_scan + scanStats.idx_scan
    let seq_pct : ℚ :=
      if 0 < total_scans then ((scanStats.seq_scan : ℚ) / (total_scans : ℚ)) * 100
      else 0
    let table_scan_analysis : TableScanAnalysis :=
      ⟨scanStats.seq_scan, scanStats.seq_tup_read, scanStats.idx_scan,
       scanStats.idx_tup_fetch, decide (seq_pct > 50) && decide (total_scans > 100),
       jsRound2 seq_pct⟩
    let totalIndexSize := (index_usage_stats.map (·.size_bytes)).sum
    let context := db.contextRows.head?.getD ⟨"0 bytes", 0⟩
    .ok ⟨schema, table, index_usage_stats, unused_indexes, unindexed_fk_columns,
      duplicate_indexes, table_scan_analysis,
      ⟨index_usage_stats.length,
       (if 0 < totalIndexSize then toFixed2 ((totalIndexSize : ℚ) / 1024 / 1024) ++ " MB"
        else "0 bytes"),
       context.table_size, context.row_count⟩⟩

/-! ### `suggestSchemaOptimizations` (`src/unnamed/part_002`, lines 1–316) -/

structure ColumnsRow where
  column_name : String
  data_type : String
  character_maximum_length : Option ℤ
deriving DecidableEq, Repr

structure ColStatsRow where
  total_count : ℕ
  null_count : ℕ
  distinct_count : ℕ
  avg_width : Option ℚ
deriving DecidableEq, Repr

/-- Result of the per-column statistics query: the query may throw (caught by
the source's `try`/`catch`) or return a row list. -/
inductive ColStatsOutcome where
  | failed
  | rows (rs : List ColStatsRow)
deriving DecidableEq, Repr

structure ColumnAnalysisEntry where
  column_name : String
  data_type : String
  character_maximum_length : Option ℤ
  nullability_rate : ℚ
  cardinality : ℕ
  avg_width : ℤ
  is_indexed : Bool
  is_foreign_key : Bool
  distinct_sample_size : ℕ
deriving DecidableEq, Repr

structure ForeignKeyAnalysis where
  constraint_name : String
  column_name : String
  foreign_table : String
  foreign_column : String
  has_index : Bool
deriving DecidableEq, Repr

structure BloatAnalysis where
  n_live_tup : ℕ
  n_dead_tup : ℕ
  bloat_percentage : ℚ
  last_vacuum : Option String
  last_autovacuum : Option String
  last_analyze : Option String
deriving DecidableEq, Repr

structure DataTypeIssue where
  column_name : String
  current_type : String
  issue : String
  suggestion : String
deriving DecidableEq, Repr

structure SchemaOptimizationsOutput where
  schema : String
  table : String
  column_analysis : List ColumnAnalysisEntry
  foreign_keys : List ForeignKeyAnalysis
  bloat_analysis : BloatAnalysis
  data_type_issues : List DataTypeIssue
  total_size : String
  row_count : ℕ
deriving DecidableEq, Repr

structure SchemaBloatRow where
  n_live_tup : ℕ
  n_dead_tup : ℕ
  last_vacuum : Option String
  last_autovacuum : Option String
  last_analyze : Option String
deriving DecidableEq, Repr

/-- Materialized result rows of the queries of `suggestSchemaOptimizations`;
the per-column statistics query is keyed by column name. -/
structure SchemaSnapshot where
  columnsRows : List ColumnsRow
  indexedColumnsRows : List String
  fkColumnsRows : List String
  colStats : String → ColStatsOutcome
  fkRows : List FkJoinRow
  bloatRows : List SchemaBloatRow
  sizeRows : List SizeContextRow

/-- Loop body analysing one column (`try` branch pushes the computed entry on
any returned row, the `catch` branch pushes the defaults, a successful empty
result pushes nothing). -/
def analyzeColumn (indexedColumns fkColumns : List String)
    (colStats : String → ColStatsOutcome) (col : ColumnsRow) :
    List ColumnAnalysisEntry :=
  match colStats col.column_name with
  | .failed =>
      [⟨col.column_name, col.data_type, col.character_maximum_length, 0, 0, 0,
        indexedColumns.contains col.column_name, fkColumns.contains col.column_name, 0⟩]
  | .rows [] => []
  | .rows (stats :: _) =>
      let total := stats.total_count
      let nulls := stats.null_count
      let avg_width : ℚ := stats.avg_width.getD 0
      [⟨col.column_name, col.data_type, col.character_maximum_length,
        (if 0 < total then ((nulls : ℚ) / (total : ℚ)) * 100 else 0),
        stats.distinct_count, jsRound avg_width,
        indexedColumns.contains col.column_name, fkColumns.contains col.column_name,
        total⟩]

/-- `toFixed(1)` on a nonnegative rational. -/
def toFixed1 (q : ℚ) : String :=
  let n : ℤ := jsRound (q * 10)
  toString (n / 10) ++ "." ++ toString (n % 10).toNat

/-- Data-type issue checks for one analysed column, in source order. -/
def dataTypeIssuesFor (col : ColumnAnalysisEntry) : List DataTypeIssue :=
  (if col.data_type = "text" ∧ 0 < col.cardinality ∧ col.cardinality < 50 ∧
      100 < col.distinct_sample_size then
    [⟨col.column_name, col.data_type,
      "Low cardinality (" ++ toString col.cardinality ++ " distinct values)",
      "Consider using ENUM type or smaller VARCHAR"⟩]
   else []) ++
  (match col.character_maximum_length with
   | some maxLen =>
       if col.data_type = "character varying" ∧ maxLen ≠ 0 ∧ 0 < col.avg_width ∧
           col.avg_width * 3 < maxLen then
         [⟨col.column_name, "varchar(" ++ toString maxLen ++ ")",
           "Max length " ++ toString maxLen ++ " much larger than avg width " ++
             toString col.avg_width,
           "Consider reducing to varchar(" ++ toString ⌈(col.avg_width : ℚ) * 3 / 2⌉ ++ ")"⟩]
       else []
   | none => []) ++
  (if 50 < col.nullability_rate ∧ 100 < col.distinct_sample_size then
    [⟨col.column_name, col.data_type,
      "High null rate: " ++ toFixed1 col.nullability_rate ++ "%",
      "Consider if this should be a separate optional table or has default value"⟩]
   else [])

def suggestSchemaOptimizations (schema table : String) (db : SchemaSnapshot) :
    Except String SchemaOptimizationsOutput :=
  if !validateIdentifier schema || !validateIdentifier table then
    .error "Invalid schema or table name"
  else if db.columnsRows.isEmpty then
    .error ("Table " ++ schema ++ "." ++ table ++ " not found")
  else
    let column_analysis :=
      db.columnsRows.flatMap (analyzeColumn db.indexedColumnsRows db.fkColumnsRows db.colStats)
    let foreign_keys : List ForeignKeyAnalysis :=
      db.fkRows.map (fun row =>
        ⟨row.constraint_name, row.column_name,
         row.foreign_table_schema ++ "." ++ row.foreign_table_name,
         row.foreign_column_name,
         db.indexedColumnsRows.contains row.column_name⟩)
    let bloat := db.bloatRows.head?.getD ⟨0, 0, none, none, none⟩
    let total_tup := bloat.n_live_tup + bloat.n_dead_tup
    let bloat_percentage : ℚ :=
      if 0 < total_tup then ((bloat.n_dead_tup : ℚ) / (total_tup : ℚ)) * 100 else 0
    let data_type_issues := column_analysis.flatMap dataTypeIssuesFor
    let size := db.sizeRows.head?.getD ⟨"0 bytes", 0⟩
    .ok ⟨schema, table, column_analysis, foreign_keys,
      ⟨bloat.n_live_tup, bloat.n_dead_tup, jsRound2 bloat_percentage,
       bloat.last_vacuum, bloat.last_autovacuum, bloat.last_analyze⟩,
      data_type_issues, size.table_size, size.row_count⟩

/-! ### `comprehensiveDatabaseAnalysis` (`src/unnamed/part_004`)

Counter fields that the source parses with `parseInt` are modelled as `ℕ`;
row fields that the source only interpolates into strings (`seq_scan`,
`idx_scan`, `bloat_pct`, `n_dead_tup`) stay `String`, exactly as consumed. -/

structure CriticalIssue where
  severity : Severity
  category : String
  issue : String
  affected_objects : List String
  recommended_tool : String
  recommended_action : String
deriving DecidableEq, Repr

structure WorkflowStep where
  step : ℕ
  description : String
  tool_to_use : String
  parameters : Option (String × String)
  rationale : String
deriving DecidableEq, Repr

structure TableAttentionEntry where
  schema : String
  table : String
  reasons : List String
  priority : Severity
  suggested_tools : List String
deriving DecidableEq, Repr

structure AnalysisSummary where
  total_tables : ℕ
  total_size : String
  overall_health_score : ℤ
  critical_issues : ℕ
  warnings : ℕ
deriving DecidableEq, Repr

structure ComprehensiveDatabaseAnalysisOutput where
  summary : AnalysisSummary
  critical_issues : List CriticalIssue
  analysis_workflow : List WorkflowStep
  tables_requiring_attention : List TableAttentionEntry
  quick_wins : List String
  long_term_improvements : List String
deriving DecidableEq, Repr

structure SeqScanRow where
  schemaname : String
  relname : String
  seq_scan : String
  idx_scan : String
  n_live_tup : String
deriving DecidableEq, Repr

structure DbBloatRow where
  schemaname : String
  relname : String
  n_dead_tup : String
  bloat_pct : String
deriving DecidableEq, Repr

structure NeverAnalyzedRow where
  schemaname : String
  relname : String
deriving DecidableEq, Repr

/-- Materialized results of the six catalog queries of
`comprehensiveDatabaseAnalysis`. -/
structure AnalysisSnapshot where
  total_size : String
  total_tables : ℕ
  unusedIndexCount : ℕ
  unusedIndexSize : String
  seqRows : List SeqScanRow
  unindexedFKCount : ℕ
  bloatRows : List DbBloatRow
  neverAnalyzedRows : List NeverAnalyzedRow
deriving DecidableEq, Repr

/-- Attention entry created for a high-sequential-scan table (Issue 2). -/
def mkSeqAttention (row : SeqScanRow) : TableAttentionEntry :=
  ⟨row.schemaname, row.relname,
   ["High sequential scans: " ++ row.seq_scan ++ ", index scans: " ++ row.idx_scan],
   .critical, ["get_query_statistics", "suggest_indexing_strategies"]⟩

def bloatReasonStr (row : DbBloatRow) : String :=
  "High bloat: " ++ row.bloat_pct ++ "%"

/-- Upsert performed for each bloated-table row (Issue 4): the source finds
the first entry with matching `schema`/`table`, appends the reason and the
tool suggestion in place, and otherwise pushes a fresh high-priority entry. -/
def upsertBloat (row : DbBloatRow) :
    List TableAttentionEntry → List TableAttentionEntry
  | [] => [⟨row.schemaname, row.relname, [bloatReasonStr row], .high,
            ["get_query_statistics", "suggest_schema_optimizations"]⟩]
  | e :: es =>
      if e.schema = row.schemaname ∧ e.table = row.relname then
        ⟨e.schema, e.table, e.reasons ++ [bloatReasonStr row], e.priority,
         e.suggested_tools ++ ["get_query_statistics"]⟩ :: es
      else e :: upsertBloat row es

def tablesRequiringAttention (db : AnalysisSnapshot) : List TableAttentionEntry :=
  db.bloatRows.foldl (fun l row => upsertBloat row l) (db.seqRows.map mkSeqAttention)

/-- The `critical_issues` list, pushed in the fixed Issue 1 … Issue 5 order. -/
def criticalIssuesOf (db : AnalysisSnapshot) : List CriticalIssue :=
  (if 0 < db.unusedIndexCount then
    [⟨.high, "Performance",
      toString db.unusedIndexCount ++ " unused indexes wasting " ++ db.unusedIndexSize,
      ["Multiple tables"], "suggest_indexing_strategies",
      "Analyze each table with suggest_indexing_strategies, then drop unused indexes"⟩]
   else []) ++
  (if !db.seqRows.isEmpty then
    [⟨.critical, "Performance",
      toString db.seqRows.length ++ " tables have excessive sequential scans",
      db.seqRows.map (fun r => r.schemaname ++ "." ++ r.relname),
      "suggest_indexing_strategies", "Add indexes to reduce sequential scans"⟩]
   else []) ++
  (if 0 < db.unindexedFKCount then
    [⟨.critical, "Performance",
      toString db.unindexedFKCount ++ " foreign keys without indexes (causes slow JOINs)",
      ["Multiple tables"], "suggest_indexing_strategies",
      "Create indexes on all foreign key columns for better JOIN performance"⟩]
   else []) ++
  (if !db.bloatRows.isEmpty then
    [⟨.high, "Maintenance",
      toString db.bloatRows.length ++ " tables have >10% bloat",
      db.bloatRows.map (fun r => r.schemaname ++ "." ++ r.relname ++ " (" ++ r.bloat_pct ++ "% bloat)"),
      "get_query_statistics", "Run VACUUM on bloated tables during maintenance window"⟩]
   else []) ++
  (if !db.neverAnalyzedRows.isEmpty then
    [⟨.high, "Maintenance",
      toString db.neverAnalyzedRows.length ++
        " tables have never been analyzed (query planner lacks statistics)",
      db.neverAnalyzedRows.map (fun r => r.schemaname ++ "." ++ r.relname),
      "get_query_statistics", "Run ANALYZE on these tables immediately"⟩]
   else [])

def quickWinsOf (db : AnalysisSnapshot) : List String :=
  (if 0 < db.unusedIndexCount then
    ["Drop " ++ toString db.unusedIndexCount ++ " unused indexes to save " ++
      db.unusedIndexSize ++ " and improve write performance"]
   else []) ++
  (if 0 < db.unindexedFKCount then
    ["Add indexes to " ++ toString db.unindexedFKCount ++
      " foreign key columns for immediate JOIN performance improvement"]
   else [])

/-- JS `array.join(', ')`. -/
def joinComma : List String → String
  | [] => ""
  | [s] => s
  | s :: rest => s ++ ", " ++ joinComma rest

/-- The three steps pushed for the table at position `i` of `topTables`. -/
def perTableSteps (i : ℕ) (t : TableAttentionEntry) : List WorkflowStep :=
  [⟨3 + i * 3,
    "Analyze " ++ t.schema ++ "." ++ t.table ++ " - " ++ joinComma t.reasons,
    "get_query_statistics", some (t.schema, t.table),
    "Get detailed I/O statistics, cache performance, and bloat metrics"⟩,
   ⟨4 + i * 3,
    "Get indexing analysis for " ++ t.schema ++ "." ++ t.table,
    "suggest_indexing_strategies", some (t.schema, t.table),
    "Identify missing, unused, or duplicate indexes"⟩,
   ⟨5 + i * 3,
    "Get schema optimization suggestions for " ++ t.schema ++ "." ++ t.table,
    "suggest_schema_optimizations", some (t.schema, t.table),
    "Analyze data types, foreign keys, and column statistics"⟩]

def analysisWorkflow (db : AnalysisSnapshot) : List WorkflowStep :=
  let tra := tablesRequiringAttention db
  [⟨1, "Get overall database health assessment", "get_database_health", none,
    "Identifies system-wide issues: cache performance, replication, constraints, sequences"⟩,
   ⟨2, "Identify slow queries if pg_stat_statements is available",
    "analyze_query_performance", none,
    "Find the most expensive queries that need optimization"⟩] ++
  ((tra.take 5).enum.flatMap (fun p => perTableSteps p.1 p.2)) ++
  (if 5 < tra.length then
    [⟨1000, "Repeat steps for remaining " ++ toString (tra.length - 5) ++ " tables",
      "Multiple tools", none, "Ensure all problematic tables are analyzed"⟩]
   else [])

def comprehensiveDatabaseAnalysis (db : AnalysisSnapshot) :
    ComprehensiveDatabaseAnalysisOutput :=
  let critical_issues := criticalIssuesOf db
  let acc := scoreFold (critical_issues.map (·.severity))
  ⟨⟨db.total_tables, db.total_size, max 0 acc.health_score,
    acc.criticalCount, acc.warningCount⟩,
   critical_issues, analysisWorkflow db, tablesRequiringAttention db,
   quickWinsOf db, []⟩

/-! ### Spec-side definitions

These definitions formalize vocabulary used by the specification (not by the
source) so that the claims can be stated and compared with the embedded
code. -/

/-- Spec ordering of severities: `critical > high > medium > low`. -/
def priorityRank : Severity → ℕ
  | .critical => 3
  | .high => 2
  | .medium => 1
  | .low => 0

def rankOf (e : TableAttentionEntry) : ℕ := priorityRank e.priority

/-- Stable insertion step for sorting attention entries by descending
priority: an element moves past only strictly lower-ranked entries. -/
def insertByRankDesc (e : TableAttentionEntry) :
    List TableAttentionEntry → List TableAttentionEntry
  | [] => [e]
  | x :: xs => if rankOf e < rankOf x then x :: insertByRankDesc e xs else e :: x :: xs

/-- Stable sort by descending priority with discovery order as the
tie-break — the spec's selection order for the workflow planner. -/
def sortByPriorityDesc : List TableAttentionEntry → List TableAttentionEntry
  | [] => []
  | e :: es => insertByRankDesc e (sortByPriorityDesc es)

/-- Severity of a contributing reason per spec §4.1: bloat findings are
`high`, high-sequential-scan findings are `critical`.  The reason strings of
the two finding kinds are distinguished by their fixed prefixes. -/
def reasonRank (r : String) : ℕ :=
  if "High bloat:".data.isPrefixOf r.data then 2 else 3

/-- Maximum severity rank among a list of reasons. -/
def maxReasonRank (reasons : List String) : ℕ :=
  (reasons.map reasonRank).foldl max 0

/-! ### Helper lemmas -/

instance exceptDecEq {ε α : Type} [DecidableEq ε] [DecidableEq α] :
    DecidableEq (Except ε α)
  | .error e, .error f =>
      if h : e = f then isTrue (by rw [h])
      else isFalse (by intro hh; cases hh; exact h rfl)
  | .error _, .ok _ => isFalse (by intro h; cases h)
  | .ok _, .error _ => isFalse (by intro h; cases h)
  | .ok a, .ok b =>
      if h : a = b then isTrue (by rw [h])
      else isFalse (by intro hh; cases hh; exact h rfl)

theorem scoreFold_health_score (l : List Severity) :
    ∀ acc : ScoreAcc, (l.foldl scoreStep acc).health_score =
      acc.health_score - (l.map penalty).sum := by
  induction l with
  | nil => intro acc; simp
  | cons s rest ih =>
      intro acc
      simp only [List.foldl_cons, List.map_cons, List.sum_cons, ih]
      cases s <;> simp [scoreStep, penalty] <;> ring

theorem sum_penalty_nonneg (l : List Severity) : 0 ≤ (l.map penalty).sum := by
  apply List.sum_nonneg
  intro x hx
  simp only [List.mem_map] at hx
  obtain ⟨s, _, rfl⟩ := hx
  cases s <;> simp [penalty]

theorem allPairs_pairwise {α : Type} {R : α → α → Prop} :
    ∀ {l : List α}, l.Pairwise R → ∀ {a b : α}, (a, b) ∈ allPairs l → R a b := by
  intro l
  induction l with
  | nil => intro _ a b h; simp [allPairs] at h
  | cons x xs ih =>
      intro hp a b hm
      rw [List.pairwise_cons] at hp
      simp only [allPairs, List.mem_append, List.mem_map] at hm
      rcases hm with ⟨y, hy, heq⟩ | hm
      · obtain ⟨rfl, rfl⟩ := Prod.mk.injEq .. ▸ heq
        exact hp.1 _ hy
      · exact ih hp.2 hm

theorem everyIndexMatches_of_prefix {c1 c2 : List String} (h : c1 <+: c2) :
    everyIndexMatches c1 c2 = true := by
  obtain ⟨t, rfl⟩ := h
  simp only [everyIndexMatches, List.all_eq_true, List.mem_range]
  intro i hi
  rw [List.getD_append _ _ _ _ hi]
  exact beq_self_eq_true _

/-! ### C1 — health score -/

/-- C1: for every list of issue severities, the health score computed by
`comprehensiveDatabaseAnalysis`'s scoring loop equals
`clamp(100 − Σ penalty, 0, 100)` with penalties critical 20 / high 10 /
medium 5 / low 0, and the result is invariant under permutation of the
issue list. -/
theorem claim_C1_health_score :
    ∀ issues : List Severity,
      healthScore issues = max 0 (min 100 (100 - (issues.map penalty).sum)) ∧
      ∀ issues' : List Severity, issues.Perm issues' →
        healthScore issues = healthScore issues' := by
  intro issues
  constructor
  · have h1 : healthScore issues = max 0 (100 - (issues.map penalty).sum) := by
      simp [healthScore, scoreFold, scoreFold_health_score]
    rw [h1, min_eq_right (by linarith [sum_penalty_nonneg issues])]
  · intro issues' hperm
    simp only [healthScore, scoreFold, scoreFold_health_score]
    rw [(hperm.map penalty).sum_eq]

/-- C1 witness: the theorem applied at a concrete issue list and a concrete
permutation of it. -/
theorem claim_C1_health_score_witness :
    healthScore [Severity.critical, Severity.high] =
        max 0 (min 100 (100 - ([Severity.critical, Severity.high].map penalty).sum)) ∧
      healthScore [Severity.critical, Severity.high] =
        healthScore [Severity.high, Severity.critical] :=
  ⟨(claim_C1_health_score [Severity.critical, Severity.high]).1,
   (claim_C1_health_score [Severity.critical, Severity.high]).2
     [Severity.high, Severity.critical]
     (List.Perm.swap Severity.high Severity.critical [])⟩

/-! ### C2 — duplicate-index tie-break -/

def dupIdxA : IndexUsageStats :=
  ⟨"a_idx", ["x"], "btree", false, false, "8 kB", 3, 0, 0, 8192⟩

def dupIdxB : IndexUsageStats :=
  ⟨"b_idx", ["x"], "btree", false, false, "8 kB", 3, 0, 0, 8192⟩

/-- C2 counterexample: two indexes with identical column lists and equal scan
counts, supplied in the ascending name order produced by
`ORDER BY i.indexname`.  The emitted suggestion prefers keeping `b_idx`, the
name that compares lexicographically last — not first as claimed. -/
theorem claim_C2_counterexample :
    lexLt "a_idx".data "b_idx".data = true ∧
    duplicateIndexesOf [dupIdxA, dupIdxB] =
      [⟨"a_idx", "b_idx", "Indexes have identical column sets",
        "Consider dropping one of these indexes (prefer keeping b_idx based on usage)"⟩] ∧
    "Consider dropping one of these indexes (prefer keeping b_idx based on usage)" ≠
      "Consider dropping one of these indexes (prefer keeping a_idx based on usage)" := by
  decide

/-- C2 (amended): when the index list is sorted strictly ascending by name
(as `ORDER BY i.indexname` guarantees) and two indexes have identical column
lists and equal scan counts, the emitted suggestion prefers keeping the
second index of the pair — the one whose name compares lexicographically
last. -/
theorem claim_C2_duplicate_tiebreak :
    ∀ stats : List IndexUsageStats,
      stats.Pairwise (fun a b => lexLt a.index_name.data b.index_name.data = true) →
      ∀ a b : IndexUsageStats, (a, b) ∈ allPairs stats →
        a.columns = b.columns → a.scans = b.scans →
        lexLt a.index_name.data b.index_name.data = true ∧
        checkPair a b =
          [⟨a.index_name, b.index_name, "Indexes have identical column sets",
            "Consider dropping one of these indexes (prefer keeping " ++ b.index_name ++
              " based on usage)"⟩] := by
  intro stats hsorted a b hmem hcols hscans
  refine ⟨allPairs_pairwise hsorted hmem, ?_⟩
  simp [checkPair, hcols, hscans, lt_irrefl]

/-- C2 witness: the amended theorem applied to the concrete pair. -/
theorem claim_C2_duplicate_tiebreak_witness :
    lexLt dupIdxA.index_name.data dupIdxB.index_name.data = true ∧
    checkPair dupIdxA dupIdxB =
      [⟨dupIdxA.index_name, dupIdxB.index_name, "Indexes have identical column sets",
        "Consider dropping one of these indexes (prefer keeping " ++ dupIdxB.index_name ++
          " based on usage)"⟩] :=
  claim_C2_duplicate_tiebreak [dupIdxA, dupIdxB] (by decide) dupIdxA dupIdxB
    (by decide) (by decide) (by decide)

/-! ### C4 — prefix subsumption -/

def subIdxAB : IndexUsageStats :=
  ⟨"idx_ab", ["a", "b"], "btree", false, false, "8 kB", 5, 0, 0, 8192⟩

def subIdxABC : IndexUsageStats :=
  ⟨"idx_abc", ["a", "b", "c"], "btree", false, false, "16 kB", 50, 0, 0, 16384⟩

/-- C4: for every pair of indexes whose column lists stand in a strict
order-preserving prefix relation, the pairwise check reports exactly one
subsumption entry recommending dropping the shorter (prefix) index —
whichever side of the pair the shorter index is on; and the concrete
`(a,b)` / `(a,b,c)` scenario with scans 5 and 50 produces exactly one pair
recommending dropping the `(a,b)` index. -/
theorem claim_C4_prefix_subsumption :
    (∀ a b : IndexUsageStats,
        a.columns ≠ b.columns →
        ((a.columns <+: b.columns →
           checkPair a b =
             [⟨a.index_name, b.index_name,
               a.index_name ++ " is a prefix of " ++ b.index_name,
               "Consider dropping " ++ a.index_name ++ " as " ++ b.index_name ++
                 " can handle the same queries"⟩]) ∧
         (b.columns <+: a.columns →
           checkPair a b =
             [⟨b.index_name, a.index_name,
               b.index_name ++ " is a prefix of " ++ a.index_name,
               "Consider dropping " ++ b.index_name ++ " as " ++ a.index_name ++
                 " can handle the same queries"⟩]))) ∧
    duplicateIndexesOf [subIdxAB, subIdxABC] =
      [⟨"idx_ab", "idx_abc", "idx_ab is a prefix of idx_abc",
        "Consider dropping idx_ab as idx_abc can handle the same queries"⟩] := by
  constructor
  · intro a b hne
    constructor
    · intro hpre
      have hlen : a.columns.length < b.columns.length :=
        lt_of_le_of_ne hpre.length_le
          (fun hl => hne (hpre.eq_of_length hl))
      simp [checkPair, hne, hlen, everyIndexMatches_of_prefix hpre]
    · intro hpre
      have hlen : b.columns.length < a.columns.length :=
        lt_of_le_of_ne hpre.length_le
          (fun hl => (Ne.symm hne) (hpre.eq_of_length hl))
      have hnotlt : ¬ a.columns.length < b.columns.length := by omega
      simp [checkPair, hne, hnotlt, hlen, everyIndexMatches_of_prefix hpre]
  · decide

/-- C4 witness: the general part applied to the concrete scenario pair. -/
theorem claim_C4_prefix_subsumption_witness :
    checkPair subIdxAB subIdxABC =
      [⟨"idx_ab", "idx_abc", "idx_ab is a prefix of idx_abc",
        "Consider dropping idx_ab as idx_abc can handle the same queries"⟩] :=
  (claim_C4_prefix_subsumption.1 subIdxAB subIdxABC (by decide)).1 (by decide)

/-! ### C6 — read-only query gate -/

/-- C6 counterexample: `select insertions from t` contains the denylisted
keyword `INSERT` as a (case-insensitive) substring and so should be rejected
under the claim, yet the gate accepts it, because the source's denylist token
is `"insert "` with a trailing space. -/
theorem claim_C6_counterexample :
    (validateReadOnlyQuery "select insertions from t").valid = true ∧
    containsSub (lowerChars (trimChars "select insertions from t".data))
      "insert".data = true ∧
    startsWithAllowedCmd (lowerChars (trimChars "select insertions from t".data)) = true := by
  decide

/-- C6 (amended): the gate accepts a statement iff, after trimming and
lower-casing, it begins with one of `select|with|explain|show|table|values`
followed by whitespace and contains none of the source's denylist tokens —
`insert`, `update`, `delete`, `drop`, `create`, `alter`, `truncate`,
`grant`, `revoke`, `set`, `copy` each followed by a space, plus `commit`,
`rollback`, `begin`, `start transaction` as bare substrings; every rejected
statement carries an error reason. -/
theorem claim_C6_readonly_gate :
    ∀ query : String,
      ((validateReadOnlyQuery query).valid = true ↔
        (startsWithAllowedCmd (lowerChars (trimChars query.data)) = true ∧
         ∀ kw ∈ writeKeywords,
           containsSub (lowerChars (trimChars query.data)) kw.data = false)) ∧
      ((validateReadOnlyQuery query).valid = false ↔
        (validateReadOnlyQuery query).reason.isSome = true) := by
  intro query
  cases hfind : writeKeywords.find?
      (fun kw => containsSub (lowerChars (trimChars query.data)) kw.data) with
  | some kw =>
      have hmem := List.mem_of_find?_eq_some hfind
      have hkw := List.find?_some hfind
      simp only [validateReadOnlyQuery, hfind]
      constructor
      · constructor
        · intro h; cases h
        · rintro ⟨-, hall⟩
          have := hall kw hmem
          rw [this] at hkw
          cases hkw
      · simp
  | none =>
      have hall := List.find?_eq_none.mp hfind
      simp only [validateReadOnlyQuery, hfind]
      by_cases hstart : startsWithAllowedCmd (lowerChars (trimChars query.data)) = true
      · simp only [hstart, if_true]
        constructor
        · simp only [true_and, true_iff]
          intro kw hm
          simpa using hall kw hm
        · simp
      · have : startsWithAllowedCmd (lowerChars (trimChars query.data)) = false :=
          Bool.eq_false_iff.mpr hstart
        simp [this]

/-! ### C10 — automatic LIMIT injection -/

/-- C10 counterexample: for the accepted query `"select 1 limit "` (trailing
space) the lowercased query text does contain the substring `"limit "`, yet
the executed statement is not the query unchanged: the source tests the
*trimmed* text, finds no `"limit "` there, and appends ` LIMIT 100` with a
warning. -/
theorem claim_C10_counterexample :
    containsSub (lowerChars "select 1 limit ".data) "limit ".data = true ∧
    executeQueryToolPlan "select 1 limit " none =
      .ok ⟨"select 1 limit LIMIT 100",
        some "Added LIMIT 100 to prevent excessive results. Specify LIMIT in your query to override."⟩ ∧
    "select 1 limit LIMIT 100" ≠ "select 1 limit " := by
  decide

/-- C10 (amended): for every accepted query, with `t` the trimmed statement:
when the effective `maxRows` (defaulting to 100) is nonzero and `t`'s
lowercase does not contain `"limit "`, the executed statement is
`t ++ " LIMIT maxRows"` and the warning is set; when `t`'s lowercase does
contain `"limit "`, `t` itself is executed with no warning; and when the
caller passes `maxRows = 0`, `t` is executed unchanged with no warning. -/
theorem claim_C10_execute_limit :
    ∀ (query : String) (maxRowsInput : Option ℕ),
      (validateReadOnlyQuery query).valid = true →
      (maxRowsInput.getD 100 ≠ 0 →
         containsSub (lowerChars (trimChars query.data)) "limit ".data = false →
         executeQueryToolPlan query maxRowsInput =
           .ok ⟨(⟨trimChars query.data⟩ : String) ++ " LIMIT " ++
                 toString (maxRowsInput.getD 100),
             some ("Added LIMIT " ++ toString (maxRowsInput.getD 100) ++
               " to prevent excessive results. Specify LIMIT in your query to override.")⟩) ∧
      (containsSub (lowerChars (trimChars query.data)) "limit ".data = true →
         executeQueryToolPlan query maxRowsInput =
           .ok ⟨(⟨trimChars query.data⟩ : String), none⟩) ∧
      (maxRowsInput.getD 100 = 0 →
         executeQueryToolPlan query maxRowsInput =
           .ok ⟨(⟨trimChars query.data⟩ : String), none⟩) := by
  intro query mr hvalid
  refine ⟨fun hmr hni => ?_, fun hc => ?_, fun hmr => ?_⟩
  · simp [executeQueryToolPlan, hvalid, hmr, hni]
  · simp [executeQueryToolPlan, hvalid, hc]
  · simp [executeQueryToolPlan, hvalid, hmr]

/-- C10 witness: the amended theorem applied at the concrete query
`"select 2"` with the default `maxRows`. -/
theorem claim_C10_execute_limit_witness :
    executeQueryToolPlan "select 2" none =
      .ok ⟨"select 2 LIMIT 100",
        some "Added LIMIT 100 to prevent excessive results. Specify LIMIT in your query to override."⟩ :=
  (claim_C10_execute_limit "select 2" none (by decide)).1 (by decide) (by decide)

/-! ### C8 — bloat estimate -/

/-- The exact dead-tuple percentage computed by `getQueryStatistics` from the
first statistics row. -/
def deadTuplePct (row : PgStatUserTablesRow) : ℚ :=
  if 0 < row.n_live_tup + row.n_dead_tup then
    ((row.n_dead_tup : ℚ) / ((row.n_live_tup + row.n_dead_tup : ℕ) : ℚ)) * 100
  else 0

def bloatRow850 : PgStatUserTablesRow :=
  ⟨0, 0, 0, 0, 0, 0, 0, 0, 850, 150, none, none, none, none, 0, 0, 0, 0⟩

def bloatRow750 : PgStatUserTablesRow :=
  ⟨0, 0, 0, 0, 0, 0, 0, 0, 750, 250, none, none, none, none, 0, 0, 0, 0⟩

/-- The bloat label as a pure function of the percentage. -/
theorem bloat_label_iff (p : ℚ) :
    ((if p > 20 then "High" else if p > 10 then "Moderate" else "Low") = "High" ↔
      20 < p) ∧
    ((if p > 20 then "High" else if p > 10 then "Moderate" else "Low") = "Moderate" ↔
      (10 < p ∧ p ≤ 20)) ∧
    ((if p > 20 then "High" else if p > 10 then "Moderate" else "Low") = "Low" ↔
      p ≤ 10) := by
  by_cases h20 : (20 : ℚ) < p
  · rw [if_pos h20]
    refine ⟨by simp [h20], ?_, ?_⟩
    · constructor
      · intro h; exact absurd h (by decide)
      · rintro ⟨-, hle⟩; linarith
    · constructor
      · intro h; exact absurd h (by decide)
      · intro hle; linarith
  · by_cases h10 : (10 : ℚ) < p
    · rw [if_neg h20, if_pos h10]
      refine ⟨?_, ?_, ?_⟩
      · constructor
        · intro h; exact absurd h (by decide)
        · intro h; exact absurd h h20
      · simp [h10, not_lt.mp h20]
      · constructor
        · intro h; exact absurd h (by decide)
        · intro hle; linarith
    · rw [if_neg h20, if_neg h10]
      refine ⟨?_, ?_, ?_⟩
      · constructor
        · intro h; exact absurd h (by decide)
        · intro h; exact absurd h h20
      · constructor
        · intro h; exact absurd h (by decide)
        · rintro ⟨hgt, -⟩; exact absurd hgt h10
      · simp [not_lt.mp h10]

/-- C8: with `n_dead_tup = 150`, `n_live_tup = 850` the reported
`dead_tuple_percent` is `15` and the label is `"Moderate"`; with
`250`/`750` the label is `"High"`; and in general the emitted label is
`"High"` exactly when the dead-tuple percentage exceeds 20, `"Moderate"`
exactly when it exceeds 10 but is at most 20, and `"Low"` otherwise. -/
theorem claim_C8_bloat_estimate :
    ((getQueryStatistics "public" "t" ⟨[bloatRow850], [], []⟩).map
        (fun o => (o.bloat_estimate.dead_tuple_percent, o.bloat_estimate.estimated_bloat)) =
      .ok (15, "Moderate")) ∧
    ((getQueryStatistics "public" "t" ⟨[bloatRow750], [], []⟩).map
        (fun o => o.bloat_estimate.estimated_bloat) = .ok "High") ∧
    (∀ (schema table : String) (row : PgStatUserTablesRow)
        (rest : List PgStatUserTablesRow) (ioRows : List PgStatioUserTablesRow)
        (indexRows : List PgStatUserIndexesRow),
      validateIdentifier schema = true → validateIdentifier table = true →
      (((getQueryStatistics schema table ⟨row :: rest, ioRows, indexRows⟩).map
          (fun o => o.bloat_estimate.estimated_bloat) = .ok "High") ↔
        20 < deadTuplePct row) ∧
      (((getQueryStatistics schema table ⟨row :: rest, ioRows, indexRows⟩).map
          (fun o => o.bloat_estimate.estimated_bloat) = .ok "Moderate") ↔
        (10 < deadTuplePct row ∧ deadTuplePct row ≤ 20)) ∧
      (((getQueryStatistics schema table ⟨row :: rest, ioRows, indexRows⟩).map
          (fun o => o.bloat_estimate.estimated_bloat) = .ok "Low") ↔
        deadTuplePct row ≤ 10)) := by
  have hpub : validateIdentifier "public" = true := by decide
  have ht : validateIdentifier "t" = true := by decide
  refine ⟨?_, ?_, ?_⟩
  · simp only [getQueryStatistics, bloatRow850, Except.map]
    norm_num [hpub, ht, jsRound2, jsRound]
  · simp only [getQueryStatistics, bloatRow750, Except.map]
    norm_num [hpub, ht, jsRound2, jsRound]
  · intro schema table row rest ioRows indexRows h1 h2
    have hv : (!validateIdentifier schema || !validateIdentifier table) = false := by
      rw [h1, h2]; rfl
    simp only [getQueryStatistics, hv, Bool.false_eq_true, if_false, Except.map,
      Except.ok.injEq]
    exact bloat_label_iff (deadTuplePct row)

/-- C8 witness: the general characterization applied to the concrete
150/850 snapshot and identifiers `"public"`/`"t"`. -/
theorem claim_C8_bloat_estimate_witness :
    ((getQueryStatistics "public" "t" ⟨[bloatRow850], [], []⟩).map
        (fun o => o.bloat_estimate.estimated_bloat) = .ok "Moderate") ↔
      (10 < deadTuplePct bloatRow850 ∧ deadTuplePct bloatRow850 ≤ 20) :=
  (claim_C8_bloat_estimate.2.2 "public" "t" bloatRow850 [] [] []
    (by decide) (by decide)).2.1

/-! ### C9 — identifier validation gate -/

theorem table_err_ne (x : String) : ("Table " ++ x) ≠ "Invalid schema or table name" := by
  intro h
  have h2 : ("Table " ++ x).data.take 6 =
      ("Invalid schema or table name" : String).data.take 6 := by rw [h]
  rw [String.data_append, List.take_append_of_le_length (by decide)] at h2
  exact absurd h2 (by decide)

theorem notfound_ne (s t u : String) :
    "Table " ++ s ++ "." ++ t ++ u ≠ "Invalid schema or table name" := by
  intro h
  apply table_err_ne (s ++ "." ++ t ++ u)
  rw [← h]
  simp [String.ext_iff, String.data_append, List.append_assoc]

/-- C9: an identifier passes `validateIdentifier` iff it is 1–255 characters
drawn from letters, digits, underscore, hyphen and period; each table-scoped
tool returns the `Invalid schema or table name` error for every snapshot
(i.e. before any query is consulted) when either identifier fails, and never
returns that error when both pass. -/
theorem claim_C9_identifier_gate :
    (∀ s : String, validateIdentifier s = true ↔
       (1 ≤ s.data.length ∧ s.data.length ≤ 255 ∧
        ∀ c ∈ s.data, isAllowedIdentChar c = true)) ∧
    (∀ (schema table : String) (db : QueryStatsSnapshot),
       ¬(validateIdentifier schema = true ∧ validateIdentifier table = true) →
       getQueryStatistics schema table db = .error "Invalid schema or table name") ∧
    (∀ (schema table : String) (db : IndexingSnapshot),
       ¬(validateIdentifier schema = true ∧ validateIdentifier table = true) →
       suggestIndexingStrategies schema table db = .error "Invalid schema or table name") ∧
    (∀ (schema table : String) (db : SchemaSnapshot),
       ¬(validateIdentifier schema = true ∧ validateIdentifier table = true) →
       suggestSchemaOptimizations schema table db = .error "Invalid schema or table name") ∧
    (∀ (schema table : String) (db : QueryStatsSnapshot),
       validateIdentifier schema = true → validateIdentifier table = true →
       getQueryStatistics schema table db ≠ .error "Invalid schema or table name") ∧
    (∀ (schema table : String) (db : IndexingSnapshot),
       validateIdentifier schema = true → validateIdentifier table = true →
       suggestIndexingStrategies schema table db ≠ .error "Invalid schema or table name") ∧
    (∀ (schema table : String) (db : SchemaSnapshot),
       validateIdentifier schema = true → validateIdentifier table = true →
       suggestSchemaOptimizations schema table db ≠ .error "Invalid schema or table name") := by
  have hbad : ∀ schema table : String,
      ¬(validateIdentifier schema = true ∧ validateIdentifier table = true) →
      (!validateIdentifier schema || !validateIdentifier table) = true := by
    intro schema table h
    by_cases h1 : validateIdentifier schema = true <;>
      by_cases h2 : validateIdentifier table = true <;> simp_all
  refine ⟨?_, ?_, ?_, ?_, ?_, ?_, ?_⟩
  · intro s
    simp only [validateIdentifier, Bool.and_eq_true, Bool.not_eq_true',
      List.all_eq_true, decide_eq_true_eq]
    constructor
    · rintro ⟨⟨⟨hne, hall⟩, hpos⟩, hlt⟩
      exact ⟨by omega, by omega, hall⟩
    · rintro ⟨h1, h2, h3⟩
      have hne : s.data ≠ [] := by
        intro hnil; rw [hnil] at h1; simp at h1
      refine ⟨⟨⟨?_, h3⟩, ?_⟩, by omega⟩
      · cases hd : s.data with
        | nil => exact absurd hd hne
        | cons a l => simp
      · have := List.length_pos.mpr hne; omega
  · intro schema table db h
    simp [getQueryStatistics, hbad schema table h]
  · intro schema table db h
    simp [suggestIndexingStrategies, hbad schema table h]
  · intro schema table db h
    simp [suggestSchemaOptimizations, hbad schema table h]
  · intro schema table db h1 h2
    simp only [getQueryStatistics, h1, h2, Bool.not_true, Bool.or_self, Bool.false_eq_true,
      if_false]
    cases db.tableStatsRows with
    | nil => simp [notfound_ne]
    | cons r rs => simp
  · intro schema table db h1 h2
    simp [suggestIndexingStrategies, h1, h2]
  · intro schema table db h1 h2
    simp only [suggestSchemaOptimizations, h1, h2, Bool.not_true, Bool.or_self,
      Bool.false_eq_true, if_false]
    by_cases hc : db.columnsRows.isEmpty = true
    · simp [hc, notfound_ne]
    · simp [hc]

/-- C9 witness: the theorem applied at concrete identifiers — `"bad name"`
(contains a space) is rejected by every tool for an arbitrary concrete
snapshot, and `"public"`/`"t"` pass the gate. -/
theorem claim_C9_identifier_gate_witness :
    validateIdentifier "public" = true ∧
    getQueryStatistics "bad name" "t" ⟨[], [], []⟩ =
      .error "Invalid schema or table name" ∧
    suggestIndexingStrategies "bad name" "t" ⟨[], [], [], []⟩ =
      .error "Invalid schema or table name" ∧
    suggestSchemaOptimizations "bad name" "t" ⟨[], [], [], fun _ => .failed, [], [], []⟩ =
      .error "Invalid schema or table name" ∧
    getQueryStatistics "public" "t" ⟨[], [], []⟩ ≠
      .error "Invalid schema or table name" :=
  ⟨(claim_C9_identifier_gate.1 "public").mpr ⟨by decide, by decide, by decide⟩,
   claim_C9_identifier_gate.2.1 "bad name" "t" ⟨[], [], []⟩ (by decide),
   claim_C9_identifier_gate.2.2.1 "bad name" "t" ⟨[], [], [], []⟩ (by decide),
   claim_C9_identifier_gate.2.2.2.1 "bad name" "t"
     ⟨[], [], [], fun _ => .failed, [], [], []⟩ (by decide),
   claim_C9_identifier_gate.2.2.2.2.1 "public" "t" ⟨[], [], []⟩ (by decide) (by decide)⟩

/-! ### Ordering facts about `tables_requiring_attention` -/

theorem upsertBloat_map_rankOf (row : DbBloatRow) :
    ∀ l : List TableAttentionEntry,
      (upsertBloat row l).map rankOf = l.map rankOf ++ [2] ∨
      (upsertBloat row l).map rankOf = l.map rankOf := by
  intro l
  induction l with
  | nil => left; rfl
  | cons e es ih =>
      by_cases h : e.schema = row.schemaname ∧ e.table = row.relname
      · right
        simp only [upsertBloat, if_pos h, List.map_cons]
        rfl
      · simp only [upsertBloat, if_neg h, List.map_cons]
        rcases ih with h1 | h1
        · left; rw [h1]; rfl
        · right; rw [h1]

theorem foldl_upsert_ranks (rows : List DbBloatRow) :
    ∀ l : List TableAttentionEntry,
      ((l.map rankOf).Pairwise (fun a b => b ≤ a) ∧ ∀ r ∈ l.map rankOf, 2 ≤ r) →
      (((rows.foldl (fun acc row => upsertBloat row acc) l).map rankOf).Pairwise
          (fun a b => b ≤ a) ∧
       ∀ r ∈ (rows.foldl (fun acc row => upsertBloat row acc) l).map rankOf, 2 ≤ r) := by
  induction rows with
  | nil => intro l h; exact h
  | cons row rest ih =>
      intro l h
      simp only [List.foldl_cons]
      apply ih
      rcases upsertBloat_map_rankOf row l with he | he
      · rw [he]
        constructor
        · apply List.pairwise_append.mpr
          refine ⟨h.1, by simp, ?_⟩
          intro a ha b hb
          simp only [List.mem_singleton] at hb
          subst hb
          exact h.2 a ha
        · intro r hr
          rcases List.mem_append.mp hr with h' | h'
          · exact h.2 r h'
          · simp only [List.mem_singleton] at h'
            omega
      · rw [he]; exact h

theorem tra_ranks (db : AnalysisSnapshot) :
    ((tablesRequiringAttention db).map rankOf).Pairwise (fun a b => b ≤ a) ∧
    ∀ r ∈ (tablesRequiringAttention db).map rankOf, 2 ≤ r := by
  unfold tablesRequiringAttention
  apply foldl_upsert_ranks
  have hmap : (db.seqRows.map mkSeqAttention).map rankOf =
      db.seqRows.map (fun _ => 3) := by
    rw [List.map_map]; rfl
  rw [hmap]
  constructor
  · rw [List.pairwise_map]
    exact List.pairwise_iff_forall_sublist.mpr (fun _ => le_refl 3)
  · intro r hr
    simp only [List.mem_map] at hr
    obtain ⟨_, _, rfl⟩ := hr
    omega

theorem insertByRankDesc_of_le (e : TableAttentionEntry) :
    ∀ l : List TableAttentionEntry, (∀ x ∈ l, rankOf x ≤ rankOf e) →
      insertByRankDesc e l = e :: l := by
  intro l h
  cases l with
  | nil => rfl
  | cons x xs =>
      have : ¬ rankOf e < rankOf x := not_lt.mpr (h x (by simp))
      simp [insertByRankDesc, this]

theorem sortByPriorityDesc_eq_self :
    ∀ l : List TableAttentionEntry,
      (l.map rankOf).Pairwise (fun a b => b ≤ a) → sortByPriorityDesc l = l := by
  intro l
  induction l with
  | nil => intro _; rfl
  | cons e es ih =>
      intro h
      rw [List.map_cons, List.pairwise_cons] at h
      simp only [sortByPriorityDesc]
      rw [ih h.2]
      apply insertByRankDesc_of_le
      intro x hx
      exact h.1 (rankOf x) (List.mem_map_of_mem rankOf hx)

/-! ### C3 — workflow planner selection -/

/-- C3: the attention list is, for every snapshot, already in the order of the
spec's stable descending-priority sort with discovery-order tie-break — so the
planner's `take 5` selects exactly the top 5 entries in that order; and the
workflow consists of the two fixed steps followed, for each selected table,
by exactly three steps in the fixed sub-order `get_query_statistics`,
`suggest_indexing_strategies`, `suggest_schema_optimizations`, each carrying
that table's schema and table as parameters, and the conditional overflow
step. -/
theorem claim_C3_workflow_top5 :
    ∀ db : AnalysisSnapshot,
      sortByPriorityDesc (tablesRequiringAttention db) = tablesRequiringAttention db ∧
      analysisWorkflow db =
        [⟨1, "Get overall database health assessment", "get_database_health", none,
          "Identifies system-wide issues: cache performance, replication, constraints, sequences"⟩,
         ⟨2, "Identify slow queries if pg_stat_statements is available",
          "analyze_query_performance", none,
          "Find the most expensive queries that need optimization"⟩] ++
        (((tablesRequiringAttention db).take 5).enum.flatMap (fun p =>
          [⟨3 + p.1 * 3,
            "Analyze " ++ p.2.schema ++ "." ++ p.2.table ++ " - " ++ joinComma p.2.reasons,
            "get_query_statistics", some (p.2.schema, p.2.table),
            "Get detailed I/O statistics, cache performance, and bloat metrics"⟩,
           ⟨4 + p.1 * 3,
            "Get indexing analysis for " ++ p.2.schema ++ "." ++ p.2.table,
            "suggest_indexing_strategies", some (p.2.schema, p.2.table),
            "Identify missing, unused, or duplicate indexes"⟩,
           ⟨5 + p.1 * 3,
            "Get schema optimization suggestions for " ++ p.2.schema ++ "." ++ p.2.table,
            "suggest_schema_optimizations", some (p.2.schema, p.2.table),
            "Analyze data types, foreign keys, and column statistics"⟩])) ++
        (if 5 < (tablesRequiringAttention db).length then
          [⟨1000, "Repeat steps for remaining " ++
              toString ((tablesRequiringAttention db).length - 5) ++ " tables",
            "Multiple tools", none, "Ensure all problematic tables are analyzed"⟩]
         else []) := by
  intro db
  exact ⟨sortByPriorityDesc_eq_self _ (tra_ranks db).1, rfl⟩

/-! ### C7 — workflow step numbering -/

theorem perTable_map_step :
    ∀ (l : List TableAttentionEntry) (j : ℕ),
      ((List.enumFrom j l).flatMap (fun p => perTableSteps p.1 p.2)).map
          WorkflowStep.step =
        (List.range' j l.length).flatMap (fun i => [3 + i * 3, 4 + i * 3, 5 + i * 3]) := by
  intro l
  induction l with
  | nil => intro j; rfl
  | cons t ts ih =>
      intro j
      rw [List.enumFrom_cons, List.flatMap_cons, List.map_append, ih,
        List.length_cons, List.range'_succ, List.flatMap_cons]
      rfl

theorem workflow_map_step (db : AnalysisSnapshot) :
    (analysisWorkflow db).map WorkflowStep.step =
      [1, 2] ++
      (List.range' 0 ((tablesRequiringAttention db).take 5).length).flatMap
        (fun i => [3 + i * 3, 4 + i * 3, 5 + i * 3]) ++
      (if 5 < (tablesRequiringAttention db).length then [1000] else []) := by
  simp only [analysisWorkflow, List.map_append, List.map_cons, List.map_nil]
  rw [show ((tablesRequiringAttention db).take 5).enum =
      List.enumFrom 0 ((tablesRequiringAttention db).take 5) from rfl,
    perTable_map_step]
  by_cases h5 : 5 < (tablesRequiringAttention db).length
  · rw [if_pos h5, if_pos h5]; rfl
  · rw [if_neg h5, if_neg h5]; rfl

def sevenTableSnapshot : AnalysisSnapshot :=
  ⟨"42 MB", 9, 0, "0 bytes",
   [⟨"public", "t1", "200", "10", "5000"⟩, ⟨"public", "t2", "210", "10", "5000"⟩,
    ⟨"public", "t3", "220", "10", "5000"⟩, ⟨"public", "t4", "230", "10", "5000"⟩,
    ⟨"public", "t5", "240", "10", "5000"⟩, ⟨"public", "t6", "250", "10", "5000"⟩,
    ⟨"public", "t7", "260", "10", "5000"⟩],
   0, [], []⟩

/-- C7: with exactly 7 tables requiring attention the workflow has exactly
18 steps (2 fixed + 5×3 per-table + 1 overflow, numbered 1–17 and 1000);
and for every snapshot the step numbers are strictly increasing with no
duplicates and start at 1. -/
theorem claim_C7_workflow_numbering :
    ((analysisWorkflow sevenTableSnapshot).length = 18 ∧
     (analysisWorkflow sevenTableSnapshot).map WorkflowStep.step =
       [1, 2, 3, 4, 5, 6, 7, 8, 9, 10, 11, 12, 13, 14, 15, 16, 17, 1000]) ∧
    (∀ db : AnalysisSnapshot,
      ((analysisWorkflow db).map WorkflowStep.step).Pairwise (· < ·) ∧
      ((analysisWorkflow db).map WorkflowStep.step).head? = some 1) := by
  constructor
  · constructor
    · decide
    · decide
  · intro db
    rw [workflow_map_step db]
    by_cases h5 : 5 < (tablesRequiringAttention db).length
    · have hk : ((tablesRequiringAttention db).take 5).length = 5 := by
        rw [List.length_take]; omega
      rw [if_pos h5, hk]
      exact ⟨by decide, by decide⟩
    · rw [if_neg h5]
      have hk : ((tablesRequiringAttention db).take 5).length =
          (tablesRequiringAttention db).length := by
        rw [List.length_take]; omega
      rw [hk]
      have hle : (tablesRequiringAttention db).length ≤ 5 := by omega
      set n := (tablesRequiringAttention db).length with hn
      interval_cases n <;> exact ⟨by decide, by decide⟩

/-! ### C5 — attention registry upsert -/

def keyOf (e : TableAttentionEntry) : String × String := (e.schema, e.table)

/-- Per-entry invariant: a nonempty reason list whose maximum contributing
severity equals the entry's priority, which is at least `high`. -/
def entryInv (e : TableAttentionEntry) : Prop :=
  e.reasons ≠ [] ∧ priorityRank e.priority = maxReasonRank e.reasons ∧
    2 ≤ priorityRank e.priority

theorem reasonRank_bloat (row : DbBloatRow) : reasonRank (bloatReasonStr row) = 2 := by
  have hpre : "High bloat:".data.isPrefixOf (bloatReasonStr row).data = true := by
    simp only [bloatReasonStr, String.data_append]
    rw [List.append_assoc]
    simp [List.isPrefixOf]
  simp [reasonRank, hpre]

theorem reasonRank_seq (row : SeqScanRow) :
    reasonRank ("High sequential scans: " ++ row.seq_scan ++ ", index scans: " ++
      row.idx_scan) = 3 := by
  have hpre : "High bloat:".data.isPrefixOf
      ("High sequential scans: " ++ row.seq_scan ++ ", index scans: " ++
        row.idx_scan).data = false := by
    simp only [String.data_append]
    rw [List.append_assoc, List.append_assoc]
    simp [List.isPrefixOf]
  simp [reasonRank, hpre]

theorem maxReasonRank_append (rs : List String) (r : String) :
    maxReasonRank (rs ++ [r]) = max (maxReasonRank rs) (reasonRank r) := by
  simp [maxReasonRank, List.map_append, List.foldl_append]

theorem maxReasonRank_single (r : String) : maxReasonRank [r] = reasonRank r := by
  simp [maxReasonRank]

theorem upsertBloat_entryInv (row : DbBloatRow) :
    ∀ l : List TableAttentionEntry, (∀ e ∈ l, entryInv e) →
      ∀ e ∈ upsertBloat row l, entryInv e := by
  intro l
  induction l with
  | nil =>
      intro _ e he
      simp only [upsertBloat, List.mem_singleton] at he
      subst he
      refine ⟨by simp, ?_, by simp [priorityRank]⟩
      rw [maxReasonRank_single, reasonRank_bloat]
      rfl
  | cons x xs ih =>
      intro h e he
      by_cases hx : x.schema = row.schemaname ∧ x.table = row.relname
      · rw [upsertBloat, if_pos hx] at he
        rcases List.mem_cons.mp he with rfl | hmem
        · have hxinv := h x (by simp)
          refine ⟨by simp, ?_, hxinv.2.2⟩
          rw [maxReasonRank_append, reasonRank_bloat, ← hxinv.2.1]
          have := hxinv.2.2
          simp only []
          omega
        · exact h e (by simp [hmem])
      · rw [upsertBloat, if_neg hx] at he
        rcases List.mem_cons.mp he with rfl | hmem
        · exact h e (by simp)
        · exact ih (fun e' he' => h e' (by simp [he'])) e hmem

theorem upsertBloat_keys (row : DbBloatRow) :
    ∀ l : List TableAttentionEntry,
      (upsertBloat row l).map keyOf = l.map keyOf ∨
      ((∀ e ∈ l, keyOf e ≠ (row.schemaname, row.relname)) ∧
       (upsertBloat row l).map keyOf = l.map keyOf ++ [(row.schemaname, row.relname)]) := by
  intro l
  induction l with
  | nil => right; exact ⟨by simp, rfl⟩
  | cons e es ih =>
      by_cases h : e.schema = row.schemaname ∧ e.table = row.relname
      · left
        simp only [upsertBloat, if_pos h, List.map_cons]
        rfl
      · simp only [upsertBloat, if_neg h, List.map_cons]
        rcases ih with h1 | ⟨hall, h1⟩
        · left; rw [h1]
        · right
          refine ⟨?_, by rw [h1]; rfl⟩
          intro e' he'
          rcases List.mem_cons.mp he' with rfl | hmem
          · simp only [keyOf, ne_eq, Prod.mk.injEq, not_and]
            intro hs ht
            exact h ⟨hs, ht⟩
          · exact hall e' hmem

theorem foldl_upsert_nodup (rows : List DbBloatRow) :
    ∀ l : List TableAttentionEntry, (l.map keyOf).Nodup →
      ((rows.foldl (fun acc row => upsertBloat row acc) l).map keyOf).Nodup := by
  induction rows with
  | nil => intro l h; exact h
  | cons row rest ih =>
      intro l h
      simp only [List.foldl_cons]
      apply ih
      rcases upsertBloat_keys row l with h1 | ⟨hall, h1⟩
      · rw [h1]; exact h
      · rw [h1]
        apply List.Nodup.append h (by simp)
        intro a ha hb
        simp only [List.mem_singleton] at hb
        subst hb
        simp only [List.mem_map] at ha
        obtain ⟨e, he, hk⟩ := ha
        exact hall e he hk

theorem foldl_upsert_entryInv (rows : List DbBloatRow) :
    ∀ l : List TableAttentionEntry, (∀ e ∈ l, entryInv e) →
      ∀ e ∈ rows.foldl (fun acc row => upsertBloat row acc) l, entryInv e := by
  induction rows with
  | nil => intro l h; exact h
  | cons row rest ih =>
      intro l h
      simp only [List.foldl_cons]
      exact ih _ (upsertBloat_entryInv row l h)

/-- C5: whenever the high-sequential-scan rows have pairwise distinct
`schema.table` keys (as the backing per-table statistics view guarantees),
the attention registry never holds two entries for one table, and every
entry's priority equals the maximum severity rank among its contributing
reasons (bloat reasons rank `high`, sequential-scan reasons rank
`critical`).  Moreover the upsert performed for a bloated-table row appends
the new reason and the tool suggestion to the first matching entry, leaves
its priority unchanged (so the priority is never lowered), and creates no
second entry for that table. -/
theorem claim_C5_attention_registry :
    (∀ db : AnalysisSnapshot,
       ((db.seqRows.map (fun r => (r.schemaname, r.relname))).Nodup) →
       ((tablesRequiringAttention db).map keyOf).Nodup ∧
       ∀ e ∈ tablesRequiringAttention db,
         e.reasons ≠ [] ∧ priorityRank e.priority = maxReasonRank e.reasons) ∧
    (∀ (row : DbBloatRow) (e : TableAttentionEntry) (es : List TableAttentionEntry),
       e.schema = row.schemaname → e.table = row.relname →
       upsertBloat row (e :: es) =
         ⟨e.schema, e.table, e.reasons ++ [bloatReasonStr row], e.priority,
          e.suggested_tools ++ ["get_query_statistics"]⟩ :: es) ∧
    (∀ (row : DbBloatRow) (e : TableAttentionEntry) (es : List TableAttentionEntry),
       ¬(e.schema = row.schemaname ∧ e.table = row.relname) →
       upsertBloat row (e :: es) = e :: upsertBloat row es) := by
  refine ⟨?_, ?_, ?_⟩
  · intro db hnd
    have hkeys : (db.seqRows.map mkSeqAttention).map keyOf =
        db.seqRows.map (fun r => (r.schemaname, r.relname)) := by
      rw [List.map_map]; rfl
    have hinit : ∀ e ∈ db.seqRows.map mkSeqAttention, entryInv e := by
      intro e he
      simp only [List.mem_map] at he
      obtain ⟨r, _, rfl⟩ := he
      refine ⟨by simp [mkSeqAttention], ?_, by simp [mkSeqAttention, priorityRank]⟩
      simp only [mkSeqAttention]
      rw [maxReasonRank_single, reasonRank_seq]
      rfl
    constructor
    · apply foldl_upsert_nodup
      rw [hkeys]; exact hnd
    · intro e he
      have := foldl_upsert_entryInv db.bloatRows _ hinit e he
      exact ⟨this.1, this.2.1⟩
  · intro row e es h1 h2
    simp [upsertBloat, h1, h2]
  · intro row e es h
    simp [upsertBloat, h]

/-- C5 witness: the theorem applied to a concrete snapshot where a bloat row
targets the table already flagged for sequential scans, and to concrete
upsert inputs. -/
theorem claim_C5_attention_registry_witness :
    (((tablesRequiringAttention
        ⟨"1 MB", 2, 0, "0 bytes",
         [⟨"public", "a", "200", "10", "5000"⟩],
         0,
         [⟨"public", "a", "100", "15.50"⟩, ⟨"public", "b", "50", "12.00"⟩],
         []⟩).map keyOf).Nodup) ∧
    upsertBloat ⟨"public", "a", "100", "15.50"⟩
        [⟨"public", "a", ["r1"], Severity.critical, ["t1"]⟩] =
      [⟨"public", "a", ["r1", bloatReasonStr ⟨"public", "a", "100", "15.50"⟩],
        Severity.critical, ["t1", "get_query_statistics"]⟩] :=
  ⟨(claim_C5_attention_registry.1
      ⟨"1 MB", 2, 0, "0 bytes", [⟨"public", "a", "200", "10", "5000"⟩], 0,
       [⟨"public", "a", "100", "15.50"⟩, ⟨"public", "b", "50", "12.00"⟩], []⟩
      (by decide)).1,
   claim_C5_attention_registry.2.1 ⟨"public", "a", "100", "15.50"⟩
     ⟨"public", "a", ["r1"], Severity.critical, ["t1"]⟩ [] rfl rfl⟩

end PostgresMcp
